import Mathlib

/-!
Verification of the sentiment-analysis service (src/main.py, src/models.py,
src/sentiment_analyzer.py) against its specification.

The LLM completion client is an external collaborator: each call site takes
the completion outcome as a parameter (either a decoded JSON value, standing
for the result of the regex-extraction + json.loads step, or an error).
Python exceptions are modelled with Except; machine floats are modelled as
rationals.
-/

/-- Decoded JSON values, as produced by json.loads. -/
inductive Json where
  | jnull : Json
  | jbool (b : Bool) : Json
  | jnum (q : ℚ) : Json
  | jstr (s : String) : Json
  | jarr (xs : List Json) : Json
  | jobj (kvs : List (String × Json)) : Json
deriving Inhabited

/-- Python exception values relevant to this code base. -/
inductive PyErr where
  | keyError (k : String) : PyErr
  | valueError (s : String) : PyErr
  | typeError (s : String) : PyErr
  | attributeError (s : String) : PyErr
  | zeroDivision : PyErr
  | clientError (s : String) : PyErr
deriving Repr, DecidableEq, Inhabited

/-- Models Python str(e) on the exceptions above. -/
def pyErrStr : PyErr → String
  | .keyError k => "'" ++ k ++ "'"
  | .valueError s => s
  | .typeError s => s
  | .attributeError s => s
  | .zeroDivision => "division by zero"
  | .clientError s => s

/-- Dict lookup on an association list: first binding wins (json.loads
yields unique keys). -/
def lookupKey (k : String) : List (String × Json) → Option Json
  | [] => none
  | kv :: rest => if kv.1 = k then some kv.2 else lookupKey k rest

/-- Models parsed["k"]: KeyError when the key is absent, TypeError when the
value is not a dict. -/
def Json.lookup : Json → String → Except PyErr Json
  | .jobj kvs, k =>
      match lookupKey k kvs with
      | some v => .ok v
      | none => .error (.keyError k)
  | _, k => .error (.typeError ("value for " ++ k ++ " is not subscriptable"))

/-- ASCII lowering of one character (the replies use ASCII enum words). -/
def charLower (c : Char) : Char :=
  if 'A' ≤ c ∧ c ≤ 'Z' then Char.ofNat (c.toNat + 32) else c

/-- Models s.lower() on a string value; AttributeError on any other value. -/
def pyLower : Json → Except PyErr String
  | .jstr s => .ok (String.mk (s.data.map charLower))
  | _ => .error (.attributeError "lower")

/-- Numeric value of a list of decimal digit characters. -/
def digitsToNat (cs : List Char) : ℕ :=
  cs.foldl (fun a c => a * 10 + (c.toNat - 48)) 0

/-- Decimal-literal subset of Python float(string): optional sign, digits,
optional fractional part. -/
def parseDecimal (s : String) : Option ℚ :=
  let core : List Char → Option ℚ := fun rest =>
    let ip := rest.takeWhile (fun c => c ≠ '.')
    match rest.dropWhile (fun c => c ≠ '.') with
    | [] =>
        if ip ≠ [] ∧ ip.all Char.isDigit then some ((digitsToNat ip : ℚ)) else none
    | _ :: fp =>
        if (ip ≠ [] ∨ fp ≠ []) ∧ ip.all Char.isDigit ∧ fp.all Char.isDigit then
          some ((digitsToNat ip : ℚ) + (digitsToNat fp : ℚ) / (10 : ℚ) ^ fp.length)
        else none
  match s.data with
  | '-' :: r => (core r).map (fun q => -q)
  | '+' :: r => core r
  | r => core r

/-- Integer-literal subset of Python int(string): optional sign, digits. -/
def parseIntString (s : String) : Option ℤ :=
  let core : List Char → Option ℤ := fun r =>
    if r ≠ [] ∧ r.all Char.isDigit then some ((digitsToNat r : ℤ)) else none
  match s.data with
  | '-' :: r => (core r).map (fun z => -z)
  | '+' :: r => core r
  | r => core r

/-- Truncation toward zero, as Python int() applied to a float. -/
def ratTruncate (q : ℚ) : ℤ := q.num / (q.den : ℤ)

/-- Models float(x) on a JSON value. -/
def pyFloat : Json → Except PyErr ℚ
  | .jnum q => .ok q
  | .jbool b => .ok (if b then 1 else 0)
  | .jstr s =>
      match parseDecimal s with
      | some v => .ok v
      | none => .error (.valueError ("could not convert string to float: " ++ s))
  | _ => .error (.typeError "float() argument must be a string or a real number")

/-- Models int(x) on a JSON value. -/
def pyInt : Json → Except PyErr ℤ
  | .jnum q => .ok (ratTruncate q)
  | .jbool b => .ok (if b then 1 else 0)
  | .jstr s =>
      match parseIntString s with
      | some v => .ok v
      | none => .error (.valueError ("invalid literal for int(): " ++ s))
  | _ => .error (.typeError "int() argument must be a string or a real number")

/-- Pydantic validation of a str field. -/
def pyStrVal : Json → Except PyErr String
  | .jstr s => .ok s
  | _ => .error (.typeError "expected str")

/-- Pydantic validation of an int field: integral numbers and integer
strings are accepted. -/
def pydanticInt : Json → Except PyErr ℤ
  | .jnum q => if q.den = 1 then .ok q.num else .error (.valueError "expected int")
  | .jstr s =>
      match parseIntString s with
      | some v => .ok v
      | none => .error (.valueError "expected int")
  | _ => .error (.typeError "expected int")

/-- Pydantic validation of a List[str] field. -/
def pydanticStrList : Json → Except PyErr (List String)
  | .jarr xs => xs.mapM pyStrVal
  | _ => .error (.typeError "expected list")

/-- models.SentimentType. -/
inductive SentimentType where
  | positive : SentimentType
  | negative : SentimentType
  | neutral : SentimentType
deriving Repr, DecidableEq, Inhabited

/-- Models SentimentType(s): ValueError when s is not a member value. -/
def sentimentTypeOf : String → Except PyErr SentimentType
  | "positive" => .ok .positive
  | "negative" => .ok .negative
  | "neutral" => .ok .neutral
  | s => .error (.valueError (s ++ " is not a valid SentimentType"))

/-- models.MessageRequest. -/
structure MessageRequest where
  message : String
  customer_id : Option String := none
  agent_id : Option String := none
  timestamp : Option String := none
deriving Repr, DecidableEq, Inhabited

/-- models.CostPrediction. -/
structure CostPrediction where
  optimal_conversation_type : String
  predicted_cost : String
  cost_saved : String
  reasoning : String
deriving Repr, DecidableEq, Inhabited

/-- models.ResponsePrediction. -/
structure ResponsePrediction where
  success_probability : ℤ
  best_response_time : String
  escalation_probability : ℤ
  resolution_likelihood : String
deriving Repr, DecidableEq, Inhabited

/-- models.TemplateRecommendation. -/
structure TemplateRecommendation where
  primary_category : String
  confidence : ℤ
  cost_impact : String
  avoid_categories : List String
  reasoning : String
deriving Repr, DecidableEq, Inhabited

/-- models.SentimentResponse. -/
structure SentimentResponse where
  message : String
  sentiment : SentimentType
  confidence_score : ℚ
  reasoning : String
  customer_id : Option String := none
  agent_id : Option String := none
  timestamp : Option String := none
  alert_level : String
  churn_probability : ℤ
  revenue_risk : String
  purchase_intent : ℤ
  customer_value_tier : String
  retention_action : String
  cost_prediction : CostPrediction
  response_prediction : ResponsePrediction
  template_recommendation : TemplateRecommendation
deriving Repr, DecidableEq, Inhabited

/-- CostPrediction(**parsed["cost_prediction"]). -/
def buildCostPrediction (j : Json) : Except PyErr CostPrediction := do
  let oct ← pyStrVal (← j.lookup "optimal_conversation_type")
  let pc ← pyStrVal (← j.lookup "predicted_cost")
  let cs ← pyStrVal (← j.lookup "cost_saved")
  let rz ← pyStrVal (← j.lookup "reasoning")
  .ok ⟨oct, pc, cs, rz⟩

/-- ResponsePrediction(**parsed["response_prediction"]). -/
def buildResponsePrediction (j : Json) : Except PyErr ResponsePrediction := do
  let sp ← pydanticInt (← j.lookup "success_probability")
  let brt ← pyStrVal (← j.lookup "best_response_time")
  let ep ← pydanticInt (← j.lookup "escalation_probability")
  let rl ← pyStrVal (← j.lookup "resolution_likelihood")
  .ok ⟨sp, brt, ep, rl⟩

/-- TemplateRecommendation(**parsed["template_recommendation"]). -/
def buildTemplateRecommendation (j : Json) : Except PyErr TemplateRecommendation := do
  let pcat ← pyStrVal (← j.lookup "primary_category")
  let conf ← pydanticInt (← j.lookup "confidence")
  let ci ← pyStrVal (← j.lookup "cost_impact")
  let av ← pydanticStrList (← j.lookup "avoid_categories")
  let rz ← pyStrVal (← j.lookup "reasoning")
  .ok ⟨pcat, conf, ci, av, rz⟩

/-- Construction of a SentimentResponse from one parsed JSON object, as in
SentimentAnalyzer.analyze_message lines 151-173 (identical field-by-field to
the bulk element construction at lines 226-246): coercions int()/float(),
.lower() on sentiment and alert_level, enum lookup for sentiment, nested
model constructors. Any failure is a raised exception. -/
def buildSentimentResponse (j : Json) (message : String)
    (cid aid ts : Option String) : Except PyErr SentimentResponse := do
  let sentStr ← pyLower (← j.lookup "sentiment")
  let sentiment ← sentimentTypeOf sentStr
  let conf ← pyFloat (← j.lookup "confidence_score")
  let reasoning ← pyStrVal (← j.lookup "reasoning")
  let alert ← pyLower (← j.lookup "alert_level")
  let churn ← pyInt (← j.lookup "churn_probability")
  let rrisk ← pyStrVal (← j.lookup "revenue_risk")
  let pintent ← pyInt (← j.lookup "purchase_intent")
  let tier ← pyStrVal (← j.lookup "customer_value_tier")
  let ract ← pyStrVal (← j.lookup "retention_action")
  let cp ← buildCostPrediction (← j.lookup "cost_prediction")
  let rp ← buildResponsePrediction (← j.lookup "response_prediction")
  let tr ← buildTemplateRecommendation (← j.lookup "template_recommendation")
  .ok { message := message, sentiment := sentiment, confidence_score := conf,
        reasoning := reasoning, customer_id := cid, agent_id := aid,
        timestamp := ts, alert_level := alert, churn_probability := churn,
        revenue_risk := rrisk, purchase_intent := pintent,
        customer_value_tier := tier, retention_action := ract,
        cost_prediction := cp, response_prediction := rp,
        template_recommendation := tr }

/-- SentimentAnalyzer._create_fallback_response, lines 349-393. -/
def createFallbackResponse (message : String) (cid aid ts : Option String)
    (error : String) : SentimentResponse :=
  { message := message
    sentiment := .neutral
    confidence_score := 0
    reasoning := "Analysis error: " ++ error
    customer_id := cid
    agent_id := aid
    timestamp := ts
    alert_level := "medium"
    churn_probability := 50
    revenue_risk := "at_risk"
    purchase_intent := 25
    customer_value_tier := "medium_value"
    retention_action := "follow_up"
    cost_prediction :=
      { optimal_conversation_type := "service"
        predicted_cost := "₹0.00"
        cost_saved := "₹0.00"
        reasoning := "Fallback to safe service category due to analysis error" }
    response_prediction :=
      { success_probability := 50
        best_response_time := "within_1_hour"
        escalation_probability := 30
        resolution_likelihood := "medium" }
    template_recommendation :=
      { primary_category := "service"
        confidence := 60
        cost_impact := "₹0.00"
        avoid_categories := ["marketing"]
        reasoning := "Safe fallback recommendation - use service category" } }

/-- The body of analyze_message up to the return: the completion outcome
(LLM call plus regex extraction plus json.loads, supplied as a parameter)
followed by the record construction. -/
def analysisBody (completion : Except PyErr Json) (message : String)
    (cid aid ts : Option String) : Except PyErr SentimentResponse := do
  buildSentimentResponse (← completion) message cid aid ts

/-- SentimentAnalyzer.analyze_message, lines 129-179: the whole body runs
inside try/except, and every exception is converted into the fallback
record. -/
def analyze_message (completion : Except PyErr Json) (message : String)
    (cid aid ts : Option String) : SentimentResponse :=
  match analysisBody completion message cid aid ts with
  | .ok r => r
  | .error e => createFallbackResponse message cid aid ts ("Analysis error: " ++ pyErrStr e)

/-- Counts in the alert_counts dict of _calculate_summary. -/
structure AlertCounts where
  low : ℕ
  medium : ℕ
  high : ℕ
deriving Repr, DecidableEq, Inhabited

/-- The summary dict built by _calculate_summary, lines 319-345 (the
constant processing_time field is omitted). -/
structure Summary where
  total_messages : ℕ
  positive_percentage : ℚ
  negative_percentage : ℚ
  neutral_percentage : ℚ
  alert_distribution : AlertCounts
  high_priority_count : ℕ
  average_confidence : ℚ
  average_churn_risk : ℚ
  average_purchase_intent : ℚ
  high_value_customers : ℕ
  high_value_percentage : ℚ
  total_cost_savings : String
  customers_needing_retention : ℕ
  immediate_response_required : ℕ
  marketing_opportunities : ℕ
  service_required : ℕ
deriving Repr, DecidableEq, Inhabited

/-- The dict {"results": results, "summary": summary} returned by
_calculate_summary. -/
structure BulkResult where
  results : List SentimentResponse
  summary : Summary
deriving Repr, DecidableEq, Inhabited

/-- Python round(x, 2) on exact rationals. -/
def round2 (x : ℚ) : ℚ := (round (100 * x) : ℤ) / 100

/-- Python round(x, 1) on exact rationals. -/
def round1 (x : ℚ) : ℚ := (round (10 * x) : ℤ) / 10

/-- The alert-count loop of _calculate_summary lines 300-303:
alert_counts[result.alert_level] += 1 raises KeyError on any level outside
the three dict keys, at the first offending result. -/
def alertCountsGo (acc : AlertCounts) : List SentimentResponse → Except PyErr AlertCounts
  | [] => .ok acc
  | r :: rest =>
      if r.alert_level = "low" then alertCountsGo { acc with low := acc.low + 1 } rest
      else if r.alert_level = "medium" then alertCountsGo { acc with medium := acc.medium + 1 } rest
      else if r.alert_level = "high" then alertCountsGo { acc with high := acc.high + 1 } rest
      else .error (.keyError r.alert_level)

/-- Number of results with the given sentiment. -/
def countSentiment (rs : List SentimentResponse) (t : SentimentType) : ℕ :=
  rs.countP (fun r => decide (r.sentiment = t))

/-- result.cost_prediction.cost_saved.replace("₹", ""): removing every
occurrence of the one-character substring. -/
def stripCurrency (s : String) : String :=
  String.mk (s.data.filter (fun c => c ≠ '₹'))

/-- The cost-savings accumulation of lines 311-317: float(...) inside
try/except; unparsable strings contribute nothing. -/
def costSavings (rs : List SentimentResponse) : ℚ :=
  rs.foldl (fun acc r =>
    match parseDecimal (stripCurrency r.cost_prediction.cost_saved) with
    | some v => acc + v
    | none => acc) 0

/-- Whether the first list is an initial segment of the second. -/
def leadsWith : List Char → List Char → Bool
  | [], _ => true
  | _ :: _, [] => false
  | a :: as, b :: bs => a == b && leadsWith as bs

/-- Whether the first list occurs as a contiguous segment of the second. -/
def hasSegment (needle : List Char) : List Char → Bool
  | [] => leadsWith needle []
  | b :: bs => leadsWith needle (b :: bs) || hasSegment needle bs

/-- Python "immediate" in s. -/
def strContainsImmediate (s : String) : Bool :=
  hasSegment "immediate".data s.data

/-- Two-decimal fixed formatting, as in the f-string "₹{x:.2f}". -/
def format2 (x : ℚ) : String :=
  let c : ℤ := round (100 * x)
  let a : ℕ := c.natAbs
  (if c < 0 then "-" else "") ++ toString (a / 100) ++ "." ++
    (if a % 100 < 10 then "0" else "") ++ toString (a % 100)

/-- The summary dict value, given the results and the alert counts. -/
def mkSummary (results : List SentimentResponse) (ac : AlertCounts) : Summary :=
  let n := results.length
  let nq : ℚ := (n : ℚ)
  { total_messages := n
    positive_percentage := round2 (((countSentiment results .positive : ℚ) / nq) * 100)
    negative_percentage := round2 (((countSentiment results .negative : ℚ) / nq) * 100)
    neutral_percentage := round2 (((countSentiment results .neutral : ℚ) / nq) * 100)
    alert_distribution := ac
    high_priority_count := ac.high
    average_confidence := round2 ((results.map (fun r => r.confidence_score)).sum / nq)
    average_churn_risk := round1 (((results.map (fun r => r.churn_probability)).sum : ℚ) / nq)
    average_purchase_intent := round1 (((results.map (fun r => r.purchase_intent)).sum : ℚ) / nq)
    high_value_customers := results.countP (fun r =>
      r.customer_value_tier == "high_value" || r.customer_value_tier == "vip")
    high_value_percentage := round1 (((results.countP (fun r =>
      r.customer_value_tier == "high_value" || r.customer_value_tier == "vip") : ℚ) / nq) * 100)
    total_cost_savings := "₹" ++ format2 (costSavings results)
    customers_needing_retention := results.countP (fun r => r.retention_action != "none")
    immediate_response_required := results.countP (fun r =>
      strContainsImmediate r.response_prediction.best_response_time)
    marketing_opportunities := results.countP (fun r =>
      r.template_recommendation.primary_category == "marketing")
    service_required := results.countP (fun r =>
      r.template_recommendation.primary_category == "service") }

/-- SentimentAnalyzer._calculate_summary, lines 287-347: the counting loop
raises KeyError on an unknown alert level; an empty result list raises
ZeroDivisionError at the first percentage; otherwise the summary dict is
returned together with the results. -/
def calculateSummary (results : List SentimentResponse) : Except PyErr BulkResult :=
  match alertCountsGo ⟨0, 0, 0⟩ results with
  | .error e => .error e
  | .ok ac =>
      if results.length = 0 then .error .zeroDivision
      else .ok { results := results, summary := mkSummary results ac }

/-- The enumerate loop of _analyze_bulk_individual lines 268-283: message
number i0 + position is analyzed with its own completion outcome, in input
order. analyze_message never raises, so the per-iteration try/except never
fires. -/
def bulkIndividualGo (oracle : ℕ → Except PyErr Json) (i0 : ℕ) :
    List MessageRequest → List SentimentResponse
  | [] => []
  | m :: ms =>
      analyze_message (oracle i0) m.message m.customer_id m.agent_id m.timestamp
        :: bulkIndividualGo oracle (i0 + 1) ms

/-- The result list built by _analyze_bulk_individual lines 265-284. -/
def bulkIndividualResults (oracle : ℕ → Except PyErr Json)
    (msgs : List MessageRequest) : List SentimentResponse :=
  bulkIndividualGo oracle 0 msgs

/-- SentimentAnalyzer._analyze_bulk_individual, lines 261-285. The final
_calculate_summary call is outside every try/except, so its exception
propagates to the caller. -/
def analyzeBulkIndividual (oracle : ℕ → Except PyErr Json)
    (msgs : List MessageRequest) : Except PyErr BulkResult :=
  calculateSummary (bulkIndividualResults oracle msgs)

/-- The result-building loop of _analyze_bulk_optimized lines 222-253:
array element i is consumed for input message i by position; once the array
is exhausted the remaining messages receive fallback records; a failing
element construction raises, aborting the whole loop. -/
def buildCombinedGo : List Json → List MessageRequest → Except PyErr (List SentimentResponse)
  | _, [] => .ok []
  | [], m :: ms =>
      match buildCombinedGo [] ms with
      | .ok rest => .ok (createFallbackResponse m.message m.customer_id m.agent_id
          m.timestamp "Batch processing incomplete" :: rest)
      | .error e => .error e
  | j :: arrR, m :: ms =>
      match buildSentimentResponse j m.message m.customer_id m.agent_id m.timestamp with
      | .ok r =>
          match buildCombinedGo arrR ms with
          | .ok rest => .ok (r :: rest)
          | .error e => .error e
      | .error e => .error e

/-- SentimentAnalyzer._analyze_bulk_optimized, lines 198-259. The combined
completion outcome (one LLM call, regex array extraction, json.loads) is
the first parameter. Everything up to and including _calculate_summary runs
inside the try; on any exception the whole batch is re-processed in
individual mode. -/
def optimizedTry (combined : Except PyErr (List Json))
    (msgs : List MessageRequest) : Except PyErr BulkResult :=
  match combined with
  | .error e => .error e
  | .ok arr =>
      match buildCombinedGo arr msgs with
      | .error e => .error e
      | .ok results => calculateSummary results

/-- The try/except of _analyze_bulk_optimized: on any exception inside the
try block the whole batch is re-processed in individual mode. -/
def analyzeBulkOptimized (combined : Except PyErr (List Json))
    (oracle : ℕ → Except PyErr Json) (msgs : List MessageRequest) : Except PyErr BulkResult :=
  match optimizedTry combined msgs with
  | .ok d => .ok d
  | .error _ => analyzeBulkIndividual oracle msgs

/-- SentimentAnalyzer.analyze_bulk_messages, lines 181-196: truncate to the
first 15 messages, then dispatch on the batch-size threshold 8. -/
def analyze_bulk_messages (combined : Except PyErr (List Json))
    (oracle : ℕ → Except PyErr Json) (msgs : List MessageRequest) : Except PyErr BulkResult :=
  let msgs := if 15 < msgs.length then msgs.take 15 else msgs
  if msgs.length ≤ 8 then analyzeBulkOptimized combined oracle msgs
  else analyzeBulkIndividual oracle msgs

/-- A FastAPI HTTPException: status code and detail. -/
structure HTTPError where
  status_code : ℕ
  detail : String
deriving Repr, DecidableEq, Inhabited

/-- Python str(HTTPException): "status: detail". -/
def httpErrStr (e : HTTPError) : String :=
  toString e.status_code ++ ": " ++ e.detail

/-- Python: len(message.strip()) == 0. -/
def emptyAfterStrip (s : String) : Bool :=
  s.data.all Char.isWhitespace

/-- The try-block body of the analyze_sentiment handler, main.py lines
58-76: validation raises HTTPException(400); the analyzer result (which
never raises) is returned; a missing timestamp is filled with the current
time, supplied as the now parameter. -/
def analyzeSentimentBody (completion : Except PyErr Json) (now : String)
    (req : MessageRequest) : Except HTTPError SentimentResponse :=
  if req.message = "" || emptyAfterStrip req.message then
    .error ⟨400, "Message cannot be empty"⟩
  else if 2000 < req.message.length then
    .error ⟨400, "Message too long (max 2000 characters)"⟩
  else
    let ts := match req.timestamp with | some t => some t | none => some now
    .ok (analyze_message completion req.message req.customer_id req.agent_id ts)

/-- POST /analyze-sentiment, main.py lines 47-79: the except-Exception
clause also catches the HTTPException raised by validation and re-raises it
as a 500 wrapping str(e). -/
def analyzeSentimentEndpoint (completion : Except PyErr Json) (now : String)
    (req : MessageRequest) : Except HTTPError SentimentResponse :=
  match analyzeSentimentBody completion now req with
  | .ok r => .ok r
  | .error e => .error ⟨500, "Sentiment analysis failed: " ++ httpErrStr e⟩

/-- An exception escaping the analyze_bulk try-block body: either the
validation HTTPException or a Python error from dispatch. -/
inductive BulkBodyErr where
  | http (e : HTTPError) : BulkBodyErr
  | py (e : PyErr) : BulkBodyErr
deriving Repr, DecidableEq

/-- Python str(e) for an exception escaping the bulk body. -/
def bulkBodyErrStr : BulkBodyErr → String
  | .http e => httpErrStr e
  | .py e => pyErrStr e

/-- Per-message preprocessing of the analyze_bulk handler, main.py lines
102-107: fill a missing timestamp and truncate messages over 2000
characters to the first 2000 plus an ellipsis. -/
def bulkPreprocess (now : String) (m : MessageRequest) : MessageRequest :=
  { m with
    timestamp := match m.timestamp with | some t => some t | none => some now
    message := if 2000 < m.message.length then m.message.take 2000 ++ "..." else m.message }

/-- The try-block body of the analyze_bulk handler, main.py lines 92-114. -/
def analyzeBulkBody (combined : Except PyErr (List Json))
    (oracle : ℕ → Except PyErr Json) (now : String)
    (msgs : List MessageRequest) : Except BulkBodyErr BulkResult :=
  if msgs.length = 0 then .error (.http ⟨400, "Messages list cannot be empty"⟩)
  else if 15 < msgs.length then
    .error (.http ⟨400, "Maximum 15 messages allowed per bulk request for optimal performance. For larger datasets, use multiple smaller requests."⟩)
  else
    match analyze_bulk_messages combined oracle (msgs.map (bulkPreprocess now)) with
    | .ok d => .ok d
    | .error e => .error (.py e)

/-- POST /analyze-bulk, main.py lines 81-117: as in the single-message
handler, the blanket except converts every exception, including the
validation HTTPException(400), into a 500. -/
def analyzeBulkEndpoint (combined : Except PyErr (List Json))
    (oracle : ℕ → Except PyErr Json) (now : String)
    (msgs : List MessageRequest) : Except HTTPError BulkResult :=
  match analyzeBulkBody combined oracle now msgs with
  | .ok d => .ok d
  | .error e => .error ⟨500, "Bulk sentiment analysis failed: " ++ bulkBodyErrStr e⟩

deriving instance DecidableEq for Except

/-- Concrete model-reply fragment: a well-formed cost_prediction object. -/
def sampleCost : Json := .jobj
  [("optimal_conversation_type", .jstr "service"), ("predicted_cost", .jstr "₹0.00"),
   ("cost_saved", .jstr "₹0.00"), ("reasoning", .jstr "ok")]

/-- Concrete model-reply fragment: a well-formed response_prediction object. -/
def sampleResp : Json := .jobj
  [("success_probability", .jnum 80), ("best_response_time", .jstr "immediate"),
   ("escalation_probability", .jnum 10), ("resolution_likelihood", .jstr "high")]

/-- Concrete model-reply fragment: a well-formed template_recommendation object. -/
def sampleTmpl : Json := .jobj
  [("primary_category", .jstr "service"), ("confidence", .jnum 90),
   ("cost_impact", .jstr "₹0.00"), ("avoid_categories", .jarr [.jstr "marketing"]),
   ("reasoning", .jstr "ok")]

/-- A concrete model reply that is well-formed except for the two
parameters: the alert_level string and the churn_probability value. -/
def goodReply (alert : String) (churn : Json) : Json := .jobj
  [ ("sentiment", .jstr "Positive"), ("confidence_score", .jnum (9/10)),
    ("reasoning", .jstr "r"), ("alert_level", .jstr alert),
    ("churn_probability", churn), ("revenue_risk", .jstr "safe"),
    ("purchase_intent", .jnum 20), ("customer_value_tier", .jstr "vip"),
    ("retention_action", .jstr "none"), ("cost_prediction", sampleCost),
    ("response_prediction", sampleResp), ("template_recommendation", sampleTmpl) ]

/-- A batch of three fallback records. -/
def fallbackBatch3 : List SentimentResponse :=
  [createFallbackResponse "a" none none none "e1",
   createFallbackResponse "b" none none none "e2",
   createFallbackResponse "c" none none none "e3"]

/-- C7: the fallback record constructor always returns a structurally valid
SentimentResult with sentiment neutral, confidenceScore 0.0, alertLevel
medium, churnProbability 50, revenueRisk at_risk, purchaseIntent 25,
customerValueTier medium_value, retentionAction follow_up, a "service" cost
prediction with ₹0.00 costs, a response prediction with success
probability 50 and best_response_time within_1_hour, and a "service"
template recommendation whose avoidCategories contains "marketing". -/
theorem c7_fallback_record_values (m : String) (c a t : Option String) (err : String) :
    (createFallbackResponse m c a t err).sentiment = SentimentType.neutral
    ∧ (createFallbackResponse m c a t err).confidence_score = 0
    ∧ (createFallbackResponse m c a t err).alert_level = "medium"
    ∧ (createFallbackResponse m c a t err).churn_probability = 50
    ∧ (createFallbackResponse m c a t err).revenue_risk = "at_risk"
    ∧ (createFallbackResponse m c a t err).purchase_intent = 25
    ∧ (createFallbackResponse m c a t err).customer_value_tier = "medium_value"
    ∧ (createFallbackResponse m c a t err).retention_action = "follow_up"
    ∧ (createFallbackResponse m c a t err).cost_prediction.optimal_conversation_type = "service"
    ∧ (createFallbackResponse m c a t err).cost_prediction.predicted_cost = "₹0.00"
    ∧ (createFallbackResponse m c a t err).cost_prediction.cost_saved = "₹0.00"
    ∧ (createFallbackResponse m c a t err).response_prediction.success_probability = 50
    ∧ (createFallbackResponse m c a t err).response_prediction.best_response_time = "within_1_hour"
    ∧ (createFallbackResponse m c a t err).template_recommendation.primary_category = "service"
    ∧ "marketing" ∈ (createFallbackResponse m c a t err).template_recommendation.avoid_categories := by
  refine ⟨rfl, rfl, rfl, rfl, rfl, rfl, rfl, rfl, rfl, rfl, rfl, rfl, rfl, rfl, ?_⟩
  exact List.mem_singleton.mpr rfl

/-- Witness for C7 at a concrete input. -/
theorem c7_fallback_record_values_witness :
    (createFallbackResponse "m" none none none "boom").sentiment = SentimentType.neutral
    ∧ (createFallbackResponse "m" none none none "boom").confidence_score = 0
    ∧ (createFallbackResponse "m" none none none "boom").alert_level = "medium"
    ∧ (createFallbackResponse "m" none none none "boom").churn_probability = 50
    ∧ (createFallbackResponse "m" none none none "boom").revenue_risk = "at_risk"
    ∧ (createFallbackResponse "m" none none none "boom").purchase_intent = 25
    ∧ (createFallbackResponse "m" none none none "boom").customer_value_tier = "medium_value"
    ∧ (createFallbackResponse "m" none none none "boom").retention_action = "follow_up"
    ∧ (createFallbackResponse "m" none none none "boom").cost_prediction.optimal_conversation_type = "service"
    ∧ (createFallbackResponse "m" none none none "boom").cost_prediction.predicted_cost = "₹0.00"
    ∧ (createFallbackResponse "m" none none none "boom").cost_prediction.cost_saved = "₹0.00"
    ∧ (createFallbackResponse "m" none none none "boom").response_prediction.success_probability = 50
    ∧ (createFallbackResponse "m" none none none "boom").response_prediction.best_response_time = "within_1_hour"
    ∧ (createFallbackResponse "m" none none none "boom").template_recommendation.primary_category = "service"
    ∧ "marketing" ∈ (createFallbackResponse "m" none none none "boom").template_recommendation.avoid_categories :=
  c7_fallback_record_values "m" none none none "boom"

/-- Shape of a successful aggregation: when alert counting succeeds and the
batch is non-empty, _calculate_summary returns the results unchanged
together with the computed summary. -/
theorem calculateSummary_eq_ok (rs : List SentimentResponse) (ac : AlertCounts)
    (h : alertCountsGo ⟨0, 0, 0⟩ rs = .ok ac) (h0 : rs.length ≠ 0) :
    calculateSummary rs = .ok ⟨rs, mkSummary rs ac⟩ := by
  unfold calculateSummary
  rw [h]
  simp [h0]

/-- C2 counterexample: a model reply whose churn_probability is the
out-of-range number 150 is not replaced by the fallback record: the record
is constructed as-is, with churn_probability 150 outside [0,100] (and with
the parsed positive sentiment, while the fallback record is neutral). -/
theorem c2_out_of_range_counterexample :
    (analyze_message (.ok (goodReply "Medium" (.jnum 150))) "hi" none none none).churn_probability = 150
    ∧ (analyze_message (.ok (goodReply "Medium" (.jnum 150))) "hi" none none none).sentiment
        = SentimentType.positive := by
  constructor
  · decide
  · decide

/-- C2 amended: a non-numeric value in a numeric field makes the whole
record fall back (the int() coercion raises and analyze_message returns the
fallback record), but numeric values are stored without any range check:
an out-of-range 150 is kept as-is. -/
theorem c2_numeric_fields_not_clamped (m : String) (c a t : Option String) :
    analyze_message (.ok (goodReply "Medium" (.jstr "not_a_number"))) m c a t
      = createFallbackResponse m c a t "Analysis error: invalid literal for int(): not_a_number"
    ∧ (analyze_message (.ok (goodReply "Medium" (.jnum 150))) m c a t).churn_probability = 150 :=
  ⟨rfl, rfl⟩

/-- Witness for the amended C2 at a concrete input. -/
theorem c2_numeric_fields_not_clamped_witness :
    analyze_message (.ok (goodReply "Medium" (.jstr "not_a_number"))) "m" none none none
      = createFallbackResponse "m" none none none "Analysis error: invalid literal for int(): not_a_number" :=
  (c2_numeric_fields_not_clamped "m" none none none).1

/-- C9: whenever the body of analyze_message raises, with any error (no
JSON found, malformed reply, missing key, coercion failure, unknown enum
value, client failure), the error does not propagate: analyze_message
returns the fallback record for that message. -/
theorem c9_failure_yields_fallback (completion : Except PyErr Json) (m : String)
    (c a t : Option String) (e : PyErr)
    (h : analysisBody completion m c a t = .error e) :
    analyze_message completion m c a t
      = createFallbackResponse m c a t ("Analysis error: " ++ pyErrStr e) := by
  unfold analyze_message
  rw [h]

/-- Witness for C9: a completion with no JSON object yields the fallback. -/
theorem c9_failure_yields_fallback_witness :
    analyze_message (.ok (.jstr "no json here")) "m" none none none
      = createFallbackResponse "m" none none none
          ("Analysis error: " ++ pyErrStr (.typeError "value for sentiment is not subscriptable")) :=
  c9_failure_yields_fallback (.ok (.jstr "no json here")) "m" none none none
    (.typeError "value for sentiment is not subscriptable") rfl

/-- The fallback cost_saved string parses to zero. -/
theorem parseZeroRupee : parseDecimal (stripCurrency "₹0.00") = some 0 := by
  with_unfolding_all decide

/-- The cost-savings total over a batch of fallback records is zero. -/
theorem costSavings_fb3 : costSavings fallbackBatch3 = 0 := by
  simp [costSavings, fallbackBatch3, createFallbackResponse, parseZeroRupee]

/-- Two-decimal formatting of a zero amount. -/
theorem format2_zero : format2 0 = "0.00" := by
  have h : round ((100 : ℚ) * 0) = 0 := by norm_num
  simp only [format2, h]
  decide

/-- C8: the aggregator on a batch of exactly 3 fallback records raises no
error and yields positive percentage 0, negative percentage 0, neutral
percentage 100, average_churn_risk 50.0, average_purchase_intent 25.0,
total_cost_savings "₹0.00" and high_value_percentage 0. -/
theorem c8_fallback_batch_summary :
    (calculateSummary fallbackBatch3).isOk = true
    ∧ (calculateSummary fallbackBatch3).map (fun d => d.summary.positive_percentage) = .ok 0
    ∧ (calculateSummary fallbackBatch3).map (fun d => d.summary.negative_percentage) = .ok 0
    ∧ (calculateSummary fallbackBatch3).map (fun d => d.summary.neutral_percentage) = .ok 100
    ∧ (calculateSummary fallbackBatch3).map (fun d => d.summary.average_churn_risk) = .ok 50
    ∧ (calculateSummary fallbackBatch3).map (fun d => d.summary.average_purchase_intent) = .ok 25
    ∧ (calculateSummary fallbackBatch3).map (fun d => d.summary.total_cost_savings) = .ok "₹0.00"
    ∧ (calculateSummary fallbackBatch3).map (fun d => d.summary.high_value_percentage) = .ok 0 := by
  have hA : alertCountsGo ⟨0, 0, 0⟩ fallbackBatch3 = .ok ⟨0, 3, 0⟩ := by decide
  have hc : calculateSummary fallbackBatch3
      = .ok ⟨fallbackBatch3, mkSummary fallbackBatch3 ⟨0, 3, 0⟩⟩ :=
    calculateSummary_eq_ok _ _ hA (by decide)
  have hp : countSentiment fallbackBatch3 .positive = 0 := by decide
  have hn : countSentiment fallbackBatch3 .negative = 0 := by decide
  have hu : countSentiment fallbackBatch3 .neutral = 3 := by decide
  have hlen : fallbackBatch3.length = 3 := by decide
  have hchurn : (fallbackBatch3.map (fun r => (r.churn_probability : ℚ))).sum = 150 := by
    with_unfolding_all decide
  have hpi : (fallbackBatch3.map (fun r => (r.purchase_intent : ℚ))).sum = 75 := by
    with_unfolding_all decide
  have hhv : fallbackBatch3.countP (fun r =>
      r.customer_value_tier == "high_value" || r.customer_value_tier == "vip") = 0 := by decide
  refine ⟨by rw [hc]; rfl, ?_, ?_, ?_, ?_, ?_, ?_, ?_⟩ <;>
    rw [hc] <;>
    simp only [Except.map, mkSummary, hp, hn, hu, hlen, hchurn, hpi, hhv, costSavings_fb3,
      format2_zero]
  · norm_num [round2, round_eq]
  · norm_num [round2, round_eq]
  · norm_num [round2, round_eq]
  · norm_num [round1, round_eq]
  · norm_num [round1, round_eq]
  · decide
  · norm_num [round1, round_eq]

/-- Inversion of a successful aggregation. -/
theorem calculateSummary_ok_inv (rs : List SentimentResponse) (d : BulkResult)
    (h : calculateSummary rs = .ok d) :
    ∃ ac, alertCountsGo ⟨0, 0, 0⟩ rs = .ok ac ∧ rs.length ≠ 0
      ∧ d = ⟨rs, mkSummary rs ac⟩ := by
  unfold calculateSummary at h
  rcases hA : alertCountsGo ⟨0, 0, 0⟩ rs with e | ac
  · simp only [hA] at h
    cases h
  · simp only [hA] at h
    by_cases h0 : rs.length = 0
    · rw [if_pos h0] at h
      cases h
    · rw [if_neg h0] at h
      exact ⟨ac, rfl, h0, (Except.ok.inj h).symm⟩

/-- Rounding to two decimals moves a rational by at most 1/200. -/
theorem round2_close (x : ℚ) : |round2 x - x| ≤ 1 / 200 := by
  have h : |100 * x - (round (100 * x) : ℚ)| ≤ 1 / 2 := abs_sub_round (100 * x)
  have h2 : round2 x - x = -((100 * x - (round (100 * x) : ℚ)) / 100) := by
    unfold round2
    ring
  have h100 : |(100 : ℚ)| = 100 := by norm_num
  rw [h2, abs_neg, abs_div, h100]
  linarith

/-- The three sentiment counts partition every batch. -/
theorem countSentiment_sum (rs : List SentimentResponse) :
    countSentiment rs .positive + countSentiment rs .negative + countSentiment rs .neutral
      = rs.length := by
  induction rs with
  | nil => rfl
  | cons r rest ih =>
      cases hs : r.sentiment <;>
        simp [countSentiment, List.countP_cons, hs] at ih ⊢ <;>
        omega

/-- A successful alert count totals the batch size on top of the
accumulator. -/
theorem alertCountsGo_sum (rs : List SentimentResponse) :
    ∀ acc ac : AlertCounts, alertCountsGo acc rs = .ok ac →
      ac.low + ac.medium + ac.high = acc.low + acc.medium + acc.high + rs.length := by
  induction rs with
  | nil =>
      intro acc ac h
      injection h with h
      subst h
      simp
  | cons r rest ih =>
      intro acc ac h
      unfold alertCountsGo at h
      by_cases h1 : r.alert_level = "low"
      · rw [if_pos h1] at h
        have hs := ih _ _ h
        simp only [List.length_cons]
        simp at hs
        omega
      · rw [if_neg h1] at h
        by_cases h2 : r.alert_level = "medium"
        · rw [if_pos h2] at h
          have hs := ih _ _ h
          simp only [List.length_cons]
          simp at hs
          omega
        · rw [if_neg h2] at h
          by_cases h3 : r.alert_level = "high"
          · rw [if_pos h3] at h
            have hs := ih _ _ h
            simp only [List.length_cons]
            simp at hs
            omega
          · rw [if_neg h3] at h
            cases h

/-- Alert counting succeeds whenever every alert level is one of the three
dict keys. -/
theorem alertCountsGo_ok_of_valid (rs : List SentimentResponse) :
    ∀ acc : AlertCounts,
      (∀ r ∈ rs, r.alert_level = "low" ∨ r.alert_level = "medium" ∨ r.alert_level = "high") →
      ∃ ac, alertCountsGo acc rs = .ok ac := by
  induction rs with
  | nil => exact fun acc _ => ⟨acc, rfl⟩
  | cons r rest ih =>
      intro acc h
      have hrest : ∀ x ∈ rest, x.alert_level = "low" ∨ x.alert_level = "medium" ∨ x.alert_level = "high" :=
        fun x hx => h x (List.mem_cons_of_mem r hx)
      rcases h r (List.mem_cons_self r rest) with h1 | h1 | h1
      · simpa [alertCountsGo, h1] using ih _ hrest
      · simpa [alertCountsGo, h1] using ih _ hrest
      · simpa [alertCountsGo, h1] using ih _ hrest

/-- The aggregation succeeds on every non-empty batch whose alert levels
are all valid. -/
theorem calculateSummary_isOk_of_valid (rs : List SentimentResponse) (hne : rs ≠ [])
    (h : ∀ r ∈ rs, r.alert_level = "low" ∨ r.alert_level = "medium" ∨ r.alert_level = "high") :
    (calculateSummary rs).isOk = true := by
  obtain ⟨ac, hac⟩ := alertCountsGo_ok_of_valid rs ⟨0, 0, 0⟩ h
  rw [calculateSummary_eq_ok rs ac hac (fun h0 => hne (List.length_eq_zero.mp h0))]
  rfl

/-- C6 (amended): for every successful aggregation, the summary carries a
2-decimal percentage for each of the three sentiment values and a count for
each of the three alert levels; the three sentiment percentage fields sum
to 100 within 0.1, and the three alert fields are counts that sum to the
batch size (no alert percentages exist in the summary). -/
theorem c6_sentiment_percentages_sum_to_100 (rs : List SentimentResponse) (d : BulkResult)
    (h : calculateSummary rs = .ok d) :
    |d.summary.positive_percentage + d.summary.negative_percentage
        + d.summary.neutral_percentage - 100| ≤ 1 / 10
    ∧ d.summary.alert_distribution.low + d.summary.alert_distribution.medium
        + d.summary.alert_distribution.high = rs.length := by
  obtain ⟨ac, hA, h0, hd⟩ := calculateSummary_ok_inv rs d h
  subst hd
  constructor
  · simp only [mkSummary]
    have hn : ((rs.length : ℚ)) ≠ 0 := Nat.cast_ne_zero.mpr h0
    have hc : (countSentiment rs .positive : ℚ) + (countSentiment rs .negative : ℚ)
        + (countSentiment rs .neutral : ℚ) = (rs.length : ℚ) := by
      exact_mod_cast countSentiment_sum rs
    have hsum : (countSentiment rs .positive : ℚ) / (rs.length : ℚ) * 100
        + (countSentiment rs .negative : ℚ) / (rs.length : ℚ) * 100
        + (countSentiment rs .neutral : ℚ) / (rs.length : ℚ) * 100 = 100 := by
      field_simp
      linarith
    have e1 := round2_close ((countSentiment rs .positive : ℚ) / (rs.length : ℚ) * 100)
    have e2 := round2_close ((countSentiment rs .negative : ℚ) / (rs.length : ℚ) * 100)
    have e3 := round2_close ((countSentiment rs .neutral : ℚ) / (rs.length : ℚ) * 100)
    rw [abs_le] at e1 e2 e3 ⊢
    constructor <;> [linarith [hsum]; linarith [hsum]]
  · simpa using alertCountsGo_sum rs ⟨0, 0, 0⟩ ac hA

/-- Witness for the amended C6 at a concrete batch of three records. -/
theorem c6_sentiment_percentages_sum_to_100_witness :
    |(⟨fallbackBatch3, mkSummary fallbackBatch3 ⟨0, 3, 0⟩⟩ : BulkResult).summary.positive_percentage
        + (⟨fallbackBatch3, mkSummary fallbackBatch3 ⟨0, 3, 0⟩⟩ : BulkResult).summary.negative_percentage
        + (⟨fallbackBatch3, mkSummary fallbackBatch3 ⟨0, 3, 0⟩⟩ : BulkResult).summary.neutral_percentage
        - 100| ≤ 1 / 10
    ∧ (⟨fallbackBatch3, mkSummary fallbackBatch3 ⟨0, 3, 0⟩⟩ : BulkResult).summary.alert_distribution.low
        + (⟨fallbackBatch3, mkSummary fallbackBatch3 ⟨0, 3, 0⟩⟩ : BulkResult).summary.alert_distribution.medium
        + (⟨fallbackBatch3, mkSummary fallbackBatch3 ⟨0, 3, 0⟩⟩ : BulkResult).summary.alert_distribution.high
        = fallbackBatch3.length :=
  c6_sentiment_percentages_sum_to_100 fallbackBatch3 _
    (calculateSummary_eq_ok fallbackBatch3 ⟨0, 3, 0⟩ (by decide) (by decide))

/-- C6 counterexample: the claim asserts per-alert-level percentage fields
summing to 100 within 0.1; the per-alert-level fields of the summary are
plain counts (here 0, 3, 0 for a 3-record batch), whose sum 3 is not within
0.1 of 100. -/
theorem c6_alert_fields_are_counts_not_percentages :
    (calculateSummary fallbackBatch3).map (fun d =>
      decide (|((d.summary.alert_distribution.low : ℚ) + (d.summary.alert_distribution.medium : ℚ)
        + (d.summary.alert_distribution.high : ℚ) - 100)| ≤ 1 / 10)) = .ok false := by
  rw [calculateSummary_eq_ok fallbackBatch3 ⟨0, 3, 0⟩ (by decide) (by decide)]
  simp only [Except.map, mkSummary]
  norm_num

/-- C10: the aggregator is total only under the unstated precondition that
every alert_level is one of "low", "medium" or "high"; alert_level is only
lower-cased, never validated, so a model reply carrying "Critical" builds a
record whose alert_level is "critical", and on such a record the summary
raises a KeyError which escapes the per-message fallback handling of
individual-mode bulk dispatch. -/
theorem c10_summary_total_only_for_valid_alerts :
    (∀ rs : List SentimentResponse, rs ≠ [] →
      (∀ r ∈ rs, r.alert_level = "low" ∨ r.alert_level = "medium" ∨ r.alert_level = "high") →
      (calculateSummary rs).isOk = true)
    ∧ (analyze_message (.ok (goodReply "Critical" (.jnum 10))) "m" none none none).alert_level
        = "critical"
    ∧ analyzeBulkIndividual (fun _ => .ok (goodReply "Critical" (.jnum 10)))
        [⟨"m", none, none, none⟩] = .error (.keyError "critical") := by
  refine ⟨calculateSummary_isOk_of_valid, by decide, by decide⟩

/-- Witness for C10 at a concrete valid batch and the concrete failing one. -/
theorem c10_summary_total_only_for_valid_alerts_witness :
    (calculateSummary fallbackBatch3).isOk = true :=
  c10_summary_total_only_for_valid_alerts.1 fallbackBatch3 (by decide) (by decide)

/-- The individual-mode loop yields one result per message. -/
theorem bulkIndividualGo_length (oracle : ℕ → Except PyErr Json) :
    ∀ (msgs : List MessageRequest) (i0 : ℕ),
      (bulkIndividualGo oracle i0 msgs).length = msgs.length := by
  intro msgs
  induction msgs with
  | nil => intro i0; rfl
  | cons m ms ih => intro i0; simp [bulkIndividualGo, ih]

/-- Result i of the individual-mode loop is the analysis of message i with
its own completion outcome. -/
theorem bulkIndividualGo_getD (oracle : ℕ → Except PyErr Json) :
    ∀ (msgs : List MessageRequest) (i0 i : ℕ), i < msgs.length →
      (bulkIndividualGo oracle i0 msgs).getD i default
        = analyze_message (oracle (i0 + i)) (msgs.getD i default).message
            (msgs.getD i default).customer_id (msgs.getD i default).agent_id
            (msgs.getD i default).timestamp := by
  intro msgs
  induction msgs with
  | nil =>
      intro i0 i h
      simp at h
  | cons m ms ih =>
      intro i0 i h
      cases i with
      | zero => simp [bulkIndividualGo]
      | succ n =>
          have h2 := ih (i0 + 1) n (by simpa using h)
          have h3 : i0 + (n + 1) = i0 + 1 + n := by omega
          simp only [bulkIndividualGo, List.getD_cons_succ, h2, h3]

/-- A successful individual-mode dispatch returns exactly the loop results. -/
theorem analyzeBulkIndividual_ok_inv (oracle : ℕ → Except PyErr Json)
    (msgs : List MessageRequest) (d : BulkResult)
    (h : analyzeBulkIndividual oracle msgs = .ok d) :
    d.results = bulkIndividualResults oracle msgs := by
  obtain ⟨ac, hA, h0, hd⟩ := calculateSummary_ok_inv _ _ h
  subst hd
  rfl

/-- The combined-mode loop yields one result per message when it succeeds. -/
theorem buildCombinedGo_length :
    ∀ (msgs : List MessageRequest) (arr : List Json) (rs : List SentimentResponse),
      buildCombinedGo arr msgs = .ok rs → rs.length = msgs.length := by
  intro msgs
  induction msgs with
  | nil =>
      intro arr rs h
      cases arr <;> (injection h with h; subst h; rfl)
  | cons m ms ih =>
      intro arr rs h
      cases arr with
      | nil =>
          rcases hrest : buildCombinedGo [] ms with e | rest
          · unfold buildCombinedGo at h
            rw [hrest] at h
            cases h
          · unfold buildCombinedGo at h
            rw [hrest] at h
            injection h with h
            subst h
            simp [ih [] rest hrest]
      | cons j arrR =>
          rcases hb : buildSentimentResponse j m.message m.customer_id m.agent_id m.timestamp
            with e | r
          · unfold buildCombinedGo at h
            rw [hb] at h
            cases h
          · unfold buildCombinedGo at h
            rw [hb] at h
            rcases hrest : buildCombinedGo arrR ms with e | rest
            · rw [hrest] at h
              cases h
            · rw [hrest] at h
              injection h with h
              subst h
              simp [ih arrR rest hrest]

/-- Positional mapping of the combined-mode loop: result i comes from array
element i while the array lasts, and is the batch-incomplete fallback for
message i beyond the array's length. -/
theorem buildCombinedGo_getD :
    ∀ (msgs : List MessageRequest) (arr : List Json) (rs : List SentimentResponse),
      buildCombinedGo arr msgs = .ok rs →
      ∀ i, i < msgs.length →
        (arr.length ≤ i →
          rs.getD i default = createFallbackResponse (msgs.getD i default).message
            (msgs.getD i default).customer_id (msgs.getD i default).agent_id
            (msgs.getD i default).timestamp "Batch processing incomplete")
        ∧ (i < arr.length →
          buildSentimentResponse (arr.getD i .jnull) (msgs.getD i default).message
            (msgs.getD i default).customer_id (msgs.getD i default).agent_id
            (msgs.getD i default).timestamp = .ok (rs.getD i default)) := by
  intro msgs
  induction msgs with
  | nil =>
      intro arr rs h i hi
      simp at hi
  | cons m ms ih =>
      intro arr rs h i hi
      cases arr with
      | nil =>
          rcases hrest : buildCombinedGo [] ms with e | rest
          · unfold buildCombinedGo at h
            rw [hrest] at h
            cases h
          · unfold buildCombinedGo at h
            rw [hrest] at h
            injection h with h
            subst h
            cases i with
            | zero => exact ⟨fun _ => rfl, fun hlt => by simp at hlt⟩
            | succ n =>
                have h2 := ih [] rest hrest n (by simpa using hi)
                constructor
                · intro _
                  simpa using h2.1 (by simp)
                · intro hlt
                  simp at hlt
      | cons j arrR =>
          rcases hb : buildSentimentResponse j m.message m.customer_id m.agent_id m.timestamp
            with e | r
          · unfold buildCombinedGo at h
            rw [hb] at h
            cases h
          · unfold buildCombinedGo at h
            rw [hb] at h
            rcases hrest : buildCombinedGo arrR ms with e | rest
            · rw [hrest] at h
              cases h
            · rw [hrest] at h
              injection h with h
              subst h
              cases i with
              | zero =>
                  refine ⟨fun hle => by simp at hle, fun _ => ?_⟩
                  simpa using hb
              | succ n =>
                  have h2 := ih arrR rest hrest n (by simpa using hi)
                  constructor
                  · intro hle
                    simpa using h2.1 (by simpa using hle)
                  · intro hlt
                    simpa using h2.2 (by simpa using hlt)

/-- Overwriting of the echoed index field of one array element: the value
under the key message_index is replaced, everything else is untouched. -/
def setIndexField (v : Json) : Json → Json
  | .jobj kvs => .jobj (kvs.map (fun kv => if kv.1 = "message_index" then (kv.1, v) else kv))
  | j => j

/-- Association-list lookups of other keys are unchanged by overwriting the
message_index value. -/
theorem listLookup_setIndex (v : Json) (k : String) (hk : k ≠ "message_index") :
    ∀ kvs : List (String × Json),
      lookupKey k (kvs.map (fun kv => if kv.1 = "message_index" then (kv.1, v) else kv))
        = lookupKey k kvs := by
  intro kvs
  induction kvs with
  | nil => rfl
  | cons kv rest ih =>
      obtain ⟨k1, v1⟩ := kv
      by_cases h1 : k1 = "message_index"
      · subst h1
        have hke : "message_index" ≠ k := Ne.symm hk
        simp [lookupKey, hke, ih]
      · by_cases he : k1 = k <;> simp [lookupKey, h1, he, ih, hk]

/-- Json-level lookups of other keys are unchanged by overwriting the
message_index value. -/
theorem jsonLookup_setIndex (v j : Json) (k : String) (hk : k ≠ "message_index") :
    (setIndexField v j).lookup k = j.lookup k := by
  cases j <;> try rfl
  case jobj kvs =>
    simp only [setIndexField, Json.lookup, listLookup_setIndex v k hk kvs]

/-- Record construction never consults the echoed message_index field. -/
theorem buildSentimentResponse_setIndex (v j : Json) (m : String) (c a t : Option String) :
    buildSentimentResponse (setIndexField v j) m c a t = buildSentimentResponse j m c a t := by
  unfold buildSentimentResponse
  rw [jsonLookup_setIndex v j "sentiment" (by decide),
      jsonLookup_setIndex v j "confidence_score" (by decide),
      jsonLookup_setIndex v j "reasoning" (by decide),
      jsonLookup_setIndex v j "alert_level" (by decide),
      jsonLookup_setIndex v j "churn_probability" (by decide),
      jsonLookup_setIndex v j "revenue_risk" (by decide),
      jsonLookup_setIndex v j "purchase_intent" (by decide),
      jsonLookup_setIndex v j "customer_value_tier" (by decide),
      jsonLookup_setIndex v j "retention_action" (by decide),
      jsonLookup_setIndex v j "cost_prediction" (by decide),
      jsonLookup_setIndex v j "response_prediction" (by decide),
      jsonLookup_setIndex v j "template_recommendation" (by decide)]

/-- The combined-mode loop is insensitive to the echoed index fields. -/
theorem buildCombinedGo_setIndex (v : Json) :
    ∀ (msgs : List MessageRequest) (arr : List Json),
      buildCombinedGo (arr.map (setIndexField v)) msgs = buildCombinedGo arr msgs := by
  intro msgs
  induction msgs with
  | nil => intro arr; cases arr <;> rfl
  | cons m ms ih =>
      intro arr
      cases arr with
      | nil => rfl
      | cons j arrR =>
          simp only [List.map_cons]
          unfold buildCombinedGo
          rw [buildSentimentResponse_setIndex, ih arrR]

/-- Inversion of a successful combined-mode try block. -/
theorem optimizedTry_ok_inv (combined : Except PyErr (List Json))
    (msgs : List MessageRequest) (d : BulkResult)
    (h : optimizedTry combined msgs = .ok d) :
    ∃ arr results, combined = .ok arr ∧ buildCombinedGo arr msgs = .ok results
      ∧ calculateSummary results = .ok d := by
  rcases combined with e | arr
  · simp [optimizedTry] at h
  · rcases hb : buildCombinedGo arr msgs with e | results
    · simp [optimizedTry, hb] at h
    · simp only [optimizedTry, hb] at h
      exact ⟨arr, results, rfl, hb, h⟩

/-- A successful individual-mode dispatch yields one result per message. -/
theorem analyzeBulkIndividual_len (oracle : ℕ → Except PyErr Json)
    (msgs : List MessageRequest) (d : BulkResult)
    (h : analyzeBulkIndividual oracle msgs = .ok d) :
    d.results.length = msgs.length := by
  rw [analyzeBulkIndividual_ok_inv oracle msgs d h]
  exact bulkIndividualGo_length oracle msgs 0

/-- A successful dispatch, on either path, yields one result per message. -/
theorem analyze_bulk_messages_len (combined : Except PyErr (List Json))
    (oracle : ℕ → Except PyErr Json) (msgs : List MessageRequest)
    (h15 : msgs.length ≤ 15) (d : BulkResult)
    (h : analyze_bulk_messages combined oracle msgs = .ok d) :
    d.results.length = msgs.length := by
  unfold analyze_bulk_messages at h
  rw [if_neg (by omega : ¬ 15 < msgs.length)] at h
  by_cases h8 : msgs.length ≤ 8
  · rw [if_pos h8] at h
    unfold analyzeBulkOptimized at h
    rcases ht : optimizedTry combined msgs with e | d2
    · rw [ht] at h
      exact analyzeBulkIndividual_len oracle msgs d h
    · rw [ht] at h
      injection h with h
      subst h
      obtain ⟨arr, results, _, hb, hs⟩ := optimizedTry_ok_inv combined msgs d2 ht
      obtain ⟨ac, _, _, hd⟩ := calculateSummary_ok_inv results d2 hs
      subst hd
      exact buildCombinedGo_length msgs arr results hb
  · rw [if_neg h8] at h
    exact analyzeBulkIndividual_len oracle msgs d h

/-- C3: for every batch of 1 to 15 messages, a successful bulk dispatch
returns exactly one SentimentResult per input message; in individual mode
(more than 8 messages) result i is the analysis of message i with its own
completion outcome, so results keep input order and a request or parse
failure for one message yields the fallback record for that message only,
leaving every other result unaffected. -/
theorem c3_one_result_per_message_in_order (combined : Except PyErr (List Json))
    (oracle : ℕ → Except PyErr Json) (msgs : List MessageRequest)
    (hge : 1 ≤ msgs.length) (h15 : msgs.length ≤ 15) :
    (∀ d, analyze_bulk_messages combined oracle msgs = .ok d →
        d.results.length = msgs.length)
    ∧ (8 < msgs.length →
        ∀ d, analyze_bulk_messages combined oracle msgs = .ok d →
        ∀ i, i < msgs.length →
          d.results.getD i default
            = analyze_message (oracle i) (msgs.getD i default).message
                (msgs.getD i default).customer_id (msgs.getD i default).agent_id
                (msgs.getD i default).timestamp)
    ∧ (8 < msgs.length →
        ∀ d, analyze_bulk_messages combined oracle msgs = .ok d →
        ∀ i, i < msgs.length → ∀ e, oracle i = .error e →
          d.results.getD i default
            = createFallbackResponse (msgs.getD i default).message
                (msgs.getD i default).customer_id (msgs.getD i default).agent_id
                (msgs.getD i default).timestamp ("Analysis error: " ++ pyErrStr e)) := by
  have hdisp : 8 < msgs.length →
      analyze_bulk_messages combined oracle msgs = analyzeBulkIndividual oracle msgs := by
    intro h8
    unfold analyze_bulk_messages
    rw [if_neg (by omega : ¬ 15 < msgs.length), if_neg (by omega : ¬ msgs.length ≤ 8)]
  refine ⟨fun d hd => analyze_bulk_messages_len combined oracle msgs h15 d hd, ?_, ?_⟩
  · intro h8 d hd i hi
    rw [hdisp h8] at hd
    rw [analyzeBulkIndividual_ok_inv oracle msgs d hd]
    unfold bulkIndividualResults
    have h2 := bulkIndividualGo_getD oracle msgs 0 i hi
    rw [Nat.zero_add] at h2
    exact h2
  · intro h8 d hd i hi e he
    rw [hdisp h8] at hd
    rw [analyzeBulkIndividual_ok_inv oracle msgs d hd]
    unfold bulkIndividualResults
    have h2 := bulkIndividualGo_getD oracle msgs 0 i hi
    rw [Nat.zero_add] at h2
    rw [h2, he]
    rfl

/-- A concrete 9-message batch (individual mode) whose completion client is
down for every message. -/
def c3msgs : List MessageRequest := List.replicate 9 ⟨"hello", none, none, none⟩

/-- A completion oracle that fails for every message. -/
def downOracle : ℕ → Except PyErr Json := fun _ => .error (.clientError "down")

/-- The dispatch result for the concrete 9-message batch. -/
def c3d : BulkResult :=
  (analyze_bulk_messages (.error (.clientError "down")) downOracle c3msgs).toOption.getD default

/-- Witness for C3 at the concrete 9-message batch. -/
theorem c3_one_result_per_message_in_order_witness :
    c3d.results.length = c3msgs.length
    ∧ c3d.results.getD 2 default
        = createFallbackResponse "hello" none none none "Analysis error: down" := by
  have hd : analyze_bulk_messages (.error (.clientError "down")) downOracle c3msgs = .ok c3d := rfl
  constructor
  · exact (c3_one_result_per_message_in_order (.error (.clientError "down")) downOracle c3msgs
      (by decide) (by decide)).1 c3d hd
  · exact (c3_one_result_per_message_in_order (.error (.clientError "down")) downOracle c3msgs
      (by decide) (by decide)).2.2 (by decide) c3d hd 2 (by decide) (.clientError "down") rfl

/-- C4: in combined mode (at most 8 messages), when parsing the model reply
as a JSON array fails entirely, the whole batch is re-run through
individual mode, and a successful dispatch still returns exactly one
result per message — never fewer. -/
theorem c4_unparsable_combined_reply_falls_back (oracle : ℕ → Except PyErr Json)
    (msgs : List MessageRequest) (e : PyErr) (h8 : msgs.length ≤ 8) :
    analyze_bulk_messages (.error e) oracle msgs = analyzeBulkIndividual oracle msgs
    ∧ (∀ d, analyzeBulkIndividual oracle msgs = .ok d → d.results.length = msgs.length) := by
  constructor
  · unfold analyze_bulk_messages
    rw [if_neg (by omega : ¬ 15 < msgs.length), if_pos h8]
    rfl
  · exact fun d hd => analyzeBulkIndividual_len oracle msgs d hd

/-- A concrete 5-message batch for combined mode. -/
def c4msgs : List MessageRequest := List.replicate 5 ⟨"hi", none, none, none⟩

/-- The individual-mode result for the concrete 5-message batch. -/
def c4d : BulkResult := (analyzeBulkIndividual downOracle c4msgs).toOption.getD default

/-- Witness for C4 at the concrete 5-message batch with an unparsable
combined reply. -/
theorem c4_unparsable_combined_reply_falls_back_witness :
    analyze_bulk_messages (.error (.valueError "Expecting value")) downOracle c4msgs
      = analyzeBulkIndividual downOracle c4msgs
    ∧ c4d.results.length = c4msgs.length := by
  have hd : analyzeBulkIndividual downOracle c4msgs = .ok c4d := rfl
  constructor
  · exact (c4_unparsable_combined_reply_falls_back downOracle c4msgs
      (.valueError "Expecting value") (by decide)).1
  · exact (c4_unparsable_combined_reply_falls_back downOracle c4msgs
      (.valueError "Expecting value") (by decide)).2 c4d hd

/-- C5: in combined mode, array element i is mapped to input message i
purely by position — overwriting every echoed message_index field changes
nothing — and when the returned array is shorter than the batch, every
message beyond the array's length receives the batch-incomplete fallback
record. -/
theorem c5_positional_mapping_ignores_echoed_index (arr : List Json)
    (msgs : List MessageRequest) (rs : List SentimentResponse)
    (h : buildCombinedGo arr msgs = .ok rs) :
    (∀ i, i < msgs.length → arr.length ≤ i →
        rs.getD i default = createFallbackResponse (msgs.getD i default).message
          (msgs.getD i default).customer_id (msgs.getD i default).agent_id
          (msgs.getD i default).timestamp "Batch processing incomplete")
    ∧ (∀ i, i < msgs.length → i < arr.length →
        buildSentimentResponse (arr.getD i .jnull) (msgs.getD i default).message
          (msgs.getD i default).customer_id (msgs.getD i default).agent_id
          (msgs.getD i default).timestamp = .ok (rs.getD i default))
    ∧ (∀ v, buildCombinedGo (arr.map (setIndexField v)) msgs = .ok rs) :=
  ⟨fun i hi hle => (buildCombinedGo_getD msgs arr rs h i hi).1 hle,
   fun i hi hlt => (buildCombinedGo_getD msgs arr rs h i hi).2 hlt,
   fun v => (buildCombinedGo_setIndex v msgs arr).trans h⟩

/-- A one-element combined reply for a two-message batch. -/
def c5arr : List Json := [goodReply "Medium" (.jnum 10)]

/-- The two-message batch for the short combined reply. -/
def c5msgs : List MessageRequest := [⟨"m1", none, none, none⟩, ⟨"m2", none, none, none⟩]

/-- The combined-mode results for the short reply. -/
def c5rs : List SentimentResponse := (buildCombinedGo c5arr c5msgs).toOption.getD []

/-- Witness for C5: message 2 (beyond the 1-element array) receives the
batch-incomplete fallback, and overwriting the echoed index field leaves
the results unchanged. -/
theorem c5_positional_mapping_ignores_echoed_index_witness :
    c5rs.getD 1 default = createFallbackResponse "m2" none none none "Batch processing incomplete"
    ∧ buildCombinedGo (c5arr.map (setIndexField (.jnum 99))) c5msgs = .ok c5rs := by
  have h : buildCombinedGo c5arr c5msgs = .ok c5rs := rfl
  constructor
  · exact (c5_positional_mapping_ignores_echoed_index c5arr c5msgs c5rs h).1 1
      (by decide) (by decide)
  · exact (c5_positional_mapping_ignores_echoed_index c5arr c5msgs c5rs h).2.2 (.jnum 99)

/-- A completion outcome standing for an unavailable client. -/
def stubCompletion : Except PyErr Json := .error (.clientError "stub")

/-- A single-message request whose message is n copies of a non-blank
character. -/
def msgA (n : ℕ) : MessageRequest := ⟨String.mk (List.replicate n 'a'), none, none, none⟩

/-- A bulk request with n small messages. -/
def helloBatch (n : ℕ) : List MessageRequest := List.replicate n ⟨"hello", none, none, none⟩

/-- A repeated character string is not empty. -/
theorem stringA_ne_empty (n : ℕ) (hn : 0 < n) : String.mk (List.replicate n 'a') ≠ "" := by
  intro h
  have h2 : List.replicate n 'a' = ("" : String).data := congrArg String.data h
  simp [List.replicate_eq_nil_iff] at h2
  omega

/-- A repeated character string is not whitespace-only. -/
theorem stringA_not_blank (n : ℕ) (hn : 0 < n) :
    emptyAfterStrip (String.mk (List.replicate n 'a')) = false := by
  cases n with
  | zero => omega
  | succ m => simp [emptyAfterStrip, List.replicate_succ, Char.isWhitespace]

/-- Length of a repeated character string. -/
theorem stringA_length (n : ℕ) : (String.mk (List.replicate n 'a')).length = n := by
  simp [String.length]

/-- The single-message body on a message of n non-blank characters with
2000 < n raises the over-length HTTPException(400). -/
theorem analyzeSentimentBody_too_long (n : ℕ) (hn : 2000 < n) :
    analyzeSentimentBody stubCompletion "T" (msgA n) =
      .error ⟨400, "Message too long (max 2000 characters)"⟩ := by
  unfold analyzeSentimentBody msgA
  simp only
  rw [decide_eq_false (stringA_ne_empty n (by omega)), stringA_not_blank n (by omega)]
  simp only [Bool.or_false, Bool.false_eq_true, if_false]
  rw [stringA_length, if_pos hn]

/-- The single-message body on a message of 0 < n ≤ 2000 non-blank
characters succeeds. -/
theorem analyzeSentimentBody_ok (n : ℕ) (h0 : 0 < n) (hn : n ≤ 2000) :
    (analyzeSentimentBody stubCompletion "T" (msgA n)).isOk = true := by
  unfold analyzeSentimentBody msgA
  simp only
  rw [decide_eq_false (stringA_ne_empty n h0), stringA_not_blank n h0]
  simp only [Bool.or_false, Bool.false_eq_true, if_false]
  rw [stringA_length, if_neg (by omega : ¬ 2000 < n)]
  rfl

set_option maxRecDepth 4000 in
/-- C1 (code bug): each input validation raises HTTPException(400) with its
specific message, but the blanket except-Exception clause catches it and
re-raises a 500, so the status reaching the client on validation failure is
500, not 400; the in-range inputs (exactly 2000 characters, exactly 15
messages) succeed. -/
theorem c1_validation_400_wrapped_into_500 :
    analyzeSentimentEndpoint stubCompletion "T" ⟨"", none, none, none⟩
      = .error ⟨500, "Sentiment analysis failed: 400: Message cannot be empty"⟩
    ∧ analyzeSentimentEndpoint stubCompletion "T" (msgA 2001)
      = .error ⟨500, "Sentiment analysis failed: 400: Message too long (max 2000 characters)"⟩
    ∧ (analyzeSentimentEndpoint stubCompletion "T" (msgA 2000)).isOk = true
    ∧ analyzeBulkEndpoint (.error (.clientError "stub")) downOracle "T" []
      = .error ⟨500, "Bulk sentiment analysis failed: 400: Messages list cannot be empty"⟩
    ∧ analyzeBulkEndpoint (.error (.clientError "stub")) downOracle "T" (helloBatch 16)
      = .error ⟨500, "Bulk sentiment analysis failed: 400: Maximum 15 messages allowed per bulk request for optimal performance. For larger datasets, use multiple smaller requests."⟩
    ∧ (analyzeBulkEndpoint (.error (.clientError "stub")) downOracle "T" (helloBatch 15)).isOk
      = true := by
  refine ⟨by decide, ?_, ?_, by decide, by decide, by decide⟩
  · unfold analyzeSentimentEndpoint
    rw [analyzeSentimentBody_too_long 2001 (by omega)]
    decide
  · unfold analyzeSentimentEndpoint
    rcases hb : analyzeSentimentBody stubCompletion "T" (msgA 2000) with e | r
    · have := analyzeSentimentBody_ok 2000 (by omega) (by omega)
      rw [hb] at this
      cases this
    · rfl
